import Mathlib

/-!
Verification of the QOI image-viewer streaming decoder.

The definitions below are a shallow embedding of the decoder source
(`qoi.js`): `parseQoiHeaderBytes` embeds the header parser and
`stepByte` embeds the body of the per-byte loop of `getQoiPixelData`.
JavaScript numbers that flow through bitwise operators are modelled as
`Int` with explicit two's-complement int32 conversion (`toInt32`);
plain byte values are `Nat`.  The `Uint8ClampedArray` pixel output is
modelled as the list of pixels written so far (writes are strictly
sequential in the source) together with the byte length of the
allocated buffer and the running byte offset.
-/

set_option maxRecDepth 4000

/-- RGBA pixel: four channel bytes. -/
structure Pixel where
  r : Nat
  g : Nat
  b : Nat
  a : Nat
deriving DecidableEq, Repr

/-- Slots of the color cache and of the output buffer start zeroed. -/
def zeroPixel : Pixel := ⟨0, 0, 0, 0⟩

/-- JS ToInt32: reduce modulo 2^32 into the signed range [-2^31, 2^31). -/
def toInt32 (n : Int) : Int :=
  if n.emod 4294967296 < 2147483648 then n.emod 4294967296
  else n.emod 4294967296 - 4294967296

/-- Two's-complement uint32 bit pattern of an integer. -/
def toUint32 (x : Int) : Nat := (x.emod 4294967296).toNat

/-- JS bitwise or on int32 operands. -/
def jsOr (a b : Int) : Int := toInt32 (Nat.lor (toUint32 a) (toUint32 b))

/-- JS bitwise and on int32 operands. -/
def jsAnd (a b : Int) : Int := toInt32 (Nat.land (toUint32 a) (toUint32 b))

/-- Embeds the source's channel update `((v + d) | 0x100) & 0xff`
(lines 199-201 and 221-223 of the decoder): or with 0x100, mask to the
low byte. -/
def jsByteWrap (x : Int) : Nat := (jsAnd (jsOr x 256) 255).toNat

/-- The error kinds the decoder can raise.  The source throws plain
`Error` values; the constructors here name its distinct throw sites
(`rangeError` is the `RangeError` a `TypedArray.set` past the end of
the buffer, or a negative-length buffer allocation, raises). -/
inductive QoiError where
  | headerMagicMismatch
  | unsupportedChannelMode
  | unsupportedColorspaceMode
  | trailerMismatch
  | rangeError
deriving DecidableEq, Repr

/-- The bytes of the magic string "qoif". -/
def QOI_HEADER_MAGIC : List Nat := [113, 111, 105, 102]

def CHANNELS_RGB : Nat := 3
def CHANNELS_RGBA : Nat := 4
def SUPPORTED_CHANNEL_MODES : List Nat := [CHANNELS_RGB, CHANNELS_RGBA]

def COLORSPACE_SRGB : Nat := 0
def COLORSPACE_LINEAR : Nat := 1
def SUPPORTED_COLORSPACE_MODES : List Nat := [COLORSPACE_SRGB, COLORSPACE_LINEAR]

def OP_RGB_BITS : Nat := 0b11111110
def OP_RGBA_BITS : Nat := 0b11111111
def OP_INDEX_BITS : Nat := 0b00000000
def OP_DIFF_BITS : Nat := 0b01000000
def OP_LUMA_BITS : Nat := 0b10000000
def OP_RUN_BITS : Nat := 0b11000000

def OP_NONE_ID : Int := -1
def OP_HEAD_ID : Int := -2
def OP_RGB_ID : Int := 1
def OP_RGBA_ID : Int := 2
def OP_INDEX_ID : Int := 3
def OP_DIFF_ID : Int := 4
def OP_LUMA_ID : Int := 5
def OP_RUN_ID : Int := 6

def INDEX_ARRAY_SIZE : Nat := 64

/-- Parsed header fields.  `width` and `height` are `Int` because the
source computes them with `<<` and `|`, whose results are signed
32-bit values. -/
structure QoiHeader where
  width : Int
  height : Int
  channels : Nat
  colorspace : Nat
deriving DecidableEq, Repr

/-- Embeds `(b0 << 24) | (b1 << 16) | (b2 << 8) | b3` for byte operands
(each < 256): the four fields occupy disjoint bit ranges, so the ors
sum, and the single ToInt32 at the end equals the ToInt32 JS applies at
each bitwise step. -/
def beU32 (b0 b1 b2 b3 : Nat) : Int :=
  toInt32 ((b0 : Int) * 16777216 + (b1 : Int) * 65536 + (b2 : Int) * 256 + (b3 : Int))

/-- Embeds `parseQoiHeaderBytes`.  The magic comparison reads
`buffer[i]` as `get?` (out-of-range reads are `undefined` and fail the
comparison).  The source's colorspace check is
`if (!SUPPORTED_COLORSPACE_MODES)`: it tests the truthiness of the
array object itself (always true in JS, even for an empty membership
list), not membership, so that branch never throws; it is embedded by
the same always-false test on the list being empty-of-meaning, written
as a literal `false`. -/
def parseQoiHeaderBytes (buffer : List Nat) : Except QoiError QoiHeader :=
  if ¬ (buffer.get? 0 = some 113 ∧ buffer.get? 1 = some 111 ∧
        buffer.get? 2 = some 105 ∧ buffer.get? 3 = some 102) then
    .error .headerMagicMismatch
  else
    let width := beU32 (buffer.getD 4 0) (buffer.getD 5 0) (buffer.getD 6 0) (buffer.getD 7 0)
    let height := beU32 (buffer.getD 8 0) (buffer.getD 9 0) (buffer.getD 10 0) (buffer.getD 11 0)
    let channels := buffer.getD 12 0
    if ¬ SUPPORTED_CHANNEL_MODES.contains channels then
      .error .unsupportedChannelMode
    else
      let colorspace := buffer.getD 13 0
      if false then
        .error .unsupportedColorspaceMode
      else
        .ok ⟨width, height, channels, colorspace⟩

/-- The per-session decoder state of `getQoiPixelData`: every local
variable of the source that survives from one byte to the next.
`pixels` is the sequence of pixels written so far, `pixLen` the byte
length of the allocated output buffer, `pixelOffset` the running byte
offset (the source counts bytes: +4 per written pixel, +1 per consumed
trailer byte).  `width`/`height`/`channels`/`colorspace` are `none`
while still `undefined` in the source. -/
structure DecoderState where
  seenHeader : Bool
  headerBuffer : List Nat
  width : Option Int
  height : Option Int
  channels : Option Nat
  colorspace : Option Nat
  pixLen : Nat
  pixels : List Pixel
  pixelOffset : Nat
  lastPixel : Pixel
  indexValues : List Pixel
  op : Int
  opBuffer : List Nat
  opOffset : Nat
deriving DecidableEq, Repr

/-- The state at the start of a decode session. -/
def initState : DecoderState :=
  { seenHeader := false
    headerBuffer := []
    width := none
    height := none
    channels := none
    colorspace := none
    pixLen := 0
    pixels := []
    pixelOffset := 0
    lastPixel := ⟨0, 0, 0, 255⟩
    indexValues := List.replicate INDEX_ARRAY_SIZE zeroPixel
    op := OP_HEAD_ID
    opBuffer := List.replicate 4 0
    opOffset := 0 }

/-- Cache slot of a pixel: `(r*3 + g*5 + b*7 + a*11) % 64`. -/
def hashIndex (p : Pixel) : Nat := (p.r * 3 + p.g * 5 + p.b * 7 + p.a * 11) % 64

/-- Embeds `pixels.set(lastPixel, pixelOffset)`: a `TypedArray.set`
whose four bytes would run past the end of the buffer throws a
`RangeError`; otherwise the write lands at the current sequential
offset, i.e. appends the pixel. -/
def writePixel (s : DecoderState) : Except QoiError DecoderState :=
  if s.pixelOffset + 4 > s.pixLen then .error .rangeError
  else .ok { s with pixels := s.pixels ++ [s.lastPixel], pixelOffset := s.pixelOffset + 4 }

/-- Embeds the epilogue of every completed opcode: store `lastPixel`
into its hash slot of `indexValues`, reset `op` to none, zero
`opBuffer`, reset `opOffset`. -/
def storeAndReset (s : DecoderState) : DecoderState :=
  { s with indexValues := s.indexValues.set (hashIndex s.lastPixel) s.lastPixel
           op := OP_NONE_ID
           opBuffer := List.replicate 4 0
           opOffset := 0 }

/-- The shared ending of every single-pixel opcode block: write the
pixel at the sequential offset, then run the store/reset epilogue. -/
def emitPixel (s : DecoderState) : Except QoiError DecoderState :=
  match writePixel s with
  | .error e => .error e
  | .ok s1 => .ok (storeAndReset s1)

/-- Embeds the tag dispatch of the source: the two full-byte tags are
checked first, then the top two bits. -/
def dispatchTag (byte : Nat) : Int :=
  if byte = OP_RGB_BITS then OP_RGB_ID
  else if byte = OP_RGBA_BITS then OP_RGBA_ID
  else
    let twoBitTag := byte &&& 0b11000000
    if twoBitTag = OP_INDEX_BITS then OP_INDEX_ID
    else if twoBitTag = OP_DIFF_BITS then OP_DIFF_ID
    else if twoBitTag = OP_LUMA_BITS then OP_LUMA_ID
    else OP_RUN_ID

/-- DIFF red delta: `-2 + ((byte & 0b00110000) >> 4)`. -/
def diffRedOf (byte : Nat) : Int := -2 + (((byte &&& 0b00110000) >>> 4 : Nat) : Int)

/-- DIFF green delta: `-2 + ((byte & 0b00001100) >> 2)`. -/
def diffGreenOf (byte : Nat) : Int := -2 + (((byte &&& 0b00001100) >>> 2 : Nat) : Int)

/-- DIFF blue delta: `-2 + (byte & 0b00000011)`. -/
def diffBlueOf (byte : Nat) : Int := -2 + ((byte &&& 0b00000011 : Nat) : Int)

/-- LUMA green delta from the stored first byte: `-32 + opBuffer[0]`. -/
def lumaDiffGreen (b0 : Nat) : Int := -32 + (b0 : Int)

/-- LUMA red delta: `diffGreen + (-8 + ((byte & 0b11110000) >> 4))`. -/
def lumaDiffRed (b0 byte : Nat) : Int :=
  lumaDiffGreen b0 + (-8 + (((byte &&& 0b11110000) >>> 4 : Nat) : Int))

/-- LUMA blue delta: `diffGreen + (-8 + (byte & 0b00001111))`. -/
def lumaDiffBlue (b0 byte : Nat) : Int :=
  lumaDiffGreen b0 + (-8 + ((byte &&& 0b00001111 : Nat) : Int))

/-- Embeds the RUN emission loop: `runLength` sequential writes of the
(unchanged) previous pixel. -/
def runLoop (s : DecoderState) : Nat → Except QoiError DecoderState
  | 0 => .ok s
  | n + 1 =>
    match writePixel s with
    | .error e => .error e
    | .ok s1 => runLoop s1 n

/-- Embeds the header phase of the byte loop: buffer the byte; at the
14th byte parse the header and allocate the pixel buffer
(`new Uint8ClampedArray(width * height * 4)` throws a `RangeError` on a
negative length). -/
def stepHeaderByte (s : DecoderState) (byte : Nat) : Except QoiError DecoderState :=
  let hb := s.headerBuffer ++ [byte]
  if hb.length ≠ 14 then .ok { s with headerBuffer := hb }
  else
    match parseQoiHeaderBytes hb with
    | .error e => .error e
    | .ok h =>
      let n : Int := h.width * h.height * 4
      if n < 0 then .error .rangeError
      else
        .ok { s with seenHeader := true
                     headerBuffer := hb
                     width := some h.width
                     height := some h.height
                     channels := some h.channels
                     colorspace := some h.colorspace
                     pixLen := n.toNat
                     op := OP_NONE_ID }

/-- Embeds the trailer phase: once `pixelOffset >= pixels.length`,
positions 0-6 must be 0x00, position 7 must be 0x01, and anything past
position 7 is an error. -/
def stepTrailerByte (s : DecoderState) (byte : Nat) : Except QoiError DecoderState :=
  let trailerOffset := s.pixelOffset - s.pixLen
  if (trailerOffset < 7 ∧ byte ≠ 0) ∨ (trailerOffset = 7 ∧ byte ≠ 1) ∨ trailerOffset > 7 then
    .error .trailerMismatch
  else .ok { s with pixelOffset := s.pixelOffset + 1 }

/-- Embeds the RGB opcode block: the tag byte carries no data, the
next three bytes land in the scratch buffer; on the third data byte the
alpha slot is filled from the previous pixel and the pixel is emitted. -/
def handleRGB (s0 : DecoderState) (byte : Nat) : Except QoiError DecoderState :=
  let s1 := if s0.opOffset > 0 then { s0 with opBuffer := s0.opBuffer.set (s0.opOffset - 1) byte } else s0
  let s := { s1 with opOffset := s1.opOffset + 1 }
  if s.opOffset ≤ 3 then .ok s
  else
    let buf := s.opBuffer.set 3 s.lastPixel.a
    let s2 := { s with opBuffer := buf
                       lastPixel := ⟨buf.getD 0 0, buf.getD 1 0, buf.getD 2 0, buf.getD 3 0⟩ }
    emitPixel s2

/-- Embeds the RGBA opcode block: four data bytes, then the pixel is
taken verbatim from the scratch buffer. -/
def handleRGBA (s0 : DecoderState) (byte : Nat) : Except QoiError DecoderState :=
  let s1 := if s0.opOffset > 0 then { s0 with opBuffer := s0.opBuffer.set (s0.opOffset - 1) byte } else s0
  let s := { s1 with opOffset := s1.opOffset + 1 }
  if s.opOffset ≤ 4 then .ok s
  else
    let buf := s.opBuffer
    let s2 := { s with lastPixel := ⟨buf.getD 0 0, buf.getD 1 0, buf.getD 2 0, buf.getD 3 0⟩ }
    emitPixel s2

/-- Embeds the INDEX opcode block: the low six tag bits select a cache
slot, which becomes the previous pixel and is emitted. -/
def handleINDEX (s : DecoderState) (byte : Nat) : Except QoiError DecoderState :=
  let s2 := { s with lastPixel := s.indexValues.getD (byte &&& 0b00111111) zeroPixel }
  emitPixel s2

/-- The pixel a DIFF opcode byte produces from the previous pixel:
each channel gets its 2-bit delta with the source's or/and byte wrap;
alpha untouched. -/
def diffPixel (p : Pixel) (byte : Nat) : Pixel :=
  ⟨jsByteWrap ((p.r : Int) + diffRedOf byte),
   jsByteWrap ((p.g : Int) + diffGreenOf byte),
   jsByteWrap ((p.b : Int) + diffBlueOf byte),
   p.a⟩

/-- Embeds the DIFF opcode block: the decoded pixel replaces the
previous-pixel register and is emitted. -/
def handleDIFF (s : DecoderState) (byte : Nat) : Except QoiError DecoderState :=
  emitPixel { s with lastPixel := diffPixel s.lastPixel byte }

/-- The pixel a LUMA second byte produces from the previous pixel and
the parked first byte `b0`: the derived deltas with the source's or/and
byte wrap; alpha untouched. -/
def lumaPixel (p : Pixel) (b0 byte : Nat) : Pixel :=
  ⟨jsByteWrap ((p.r : Int) + lumaDiffRed b0 byte),
   jsByteWrap ((p.g : Int) + lumaDiffGreen b0),
   jsByteWrap ((p.b : Int) + lumaDiffBlue b0 byte),
   p.a⟩

/-- Embeds the LUMA opcode block: the first byte parks its low six bits
in the scratch buffer and suspends; the second byte derives the three
deltas and emits; alpha untouched. -/
def handleLUMA (s : DecoderState) (byte : Nat) : Except QoiError DecoderState :=
  if s.opOffset = 0 then
    .ok { s with opBuffer := s.opBuffer.set 0 (byte &&& 0b00111111), opOffset := s.opOffset + 1 }
  else
    emitPixel { s with lastPixel := lumaPixel s.lastPixel (s.opBuffer.getD 0 0) byte }

/-- Embeds the RUN opcode block: run length is the low six bits plus
one; the run loop emits that many copies of the previous pixel. -/
def handleRUN (s : DecoderState) (byte : Nat) : Except QoiError DecoderState :=
  match runLoop s ((byte &&& 0b00111111) + 1) with
  | .error e => .error e
  | .ok s1 => .ok (storeAndReset s1)

/-- Embeds the opcode phase of the byte loop: dispatch a fresh tag when
no opcode is in progress, then run the (unique) matching opcode block;
blocks that complete a pixel fall through to `storeAndReset`, blocks
that still await bytes return early (the source's `continue`). -/
def stepOpcodeByte (s0 : DecoderState) (byte : Nat) : Except QoiError DecoderState :=
  let op := if s0.op = OP_NONE_ID then dispatchTag byte else s0.op
  let s := { s0 with op := op }
  if op = OP_RGB_ID then handleRGB s byte
  else if op = OP_RGBA_ID then handleRGBA s byte
  else if op = OP_INDEX_ID then handleINDEX s byte
  else if op = OP_DIFF_ID then handleDIFF s byte
  else if op = OP_LUMA_ID then handleLUMA s byte
  else if op = OP_RUN_ID then handleRUN s byte
  else .ok (storeAndReset s)

/-- One byte of the decode loop of `getQoiPixelData`: header phase,
then trailer phase once the pixel buffer is full, otherwise opcode
phase. -/
def stepByte (s : DecoderState) (byte : Nat) : Except QoiError DecoderState :=
  if s.seenHeader = false then stepHeaderByte s byte
  else if s.pixelOffset ≥ s.pixLen then stepTrailerByte s byte
  else stepOpcodeByte s byte

/-- Run the byte loop over one chunk. -/
def processBytes (s : DecoderState) : List Nat → Except QoiError DecoderState
  | [] => .ok s
  | b :: rest =>
    match stepByte s b with
    | .error e => .error e
    | .ok s1 => processBytes s1 rest

/-- Run the outer reader loop over the sequence of chunks the source
delivers. -/
def processChunks (s : DecoderState) : List (List Nat) → Except QoiError DecoderState
  | [] => .ok s
  | c :: rest =>
    match processBytes s c with
    | .error e => .error e
    | .ok s1 => processChunks s1 rest

/-- The value `getQoiPixelData` resolves with when the byte source
signals end: `{ width, height, pixels }` as they stand, with no
completeness check (`width`/`height` may still be `undefined`, the
pixel buffer may be partially written). -/
structure QoiResult where
  width : Option Int
  height : Option Int
  pixels : List Pixel
deriving DecidableEq, Repr

/-- Embeds `getQoiPixelData` on a full sequence of chunks. -/
def getQoiPixelData (chunks : List (List Nat)) : Except QoiError QoiResult :=
  match processChunks initState chunks with
  | .error e => .error e
  | .ok s => .ok ⟨s.width, s.height, s.pixels⟩

/-- Serialization of a header with `Nat` dimensions, following the
spec's wire layout: magic, big-endian u32 width, big-endian u32 height,
channels byte, colorspace byte.  Used to state the round-trip claim
against `parseQoiHeaderBytes`. -/
def serializeQoiHeader (w h channels colorspace : Nat) : List Nat :=
  QOI_HEADER_MAGIC ++
  [w / 16777216 % 256, w / 65536 % 256, w / 256 % 256, w % 256] ++
  [h / 16777216 % 256, h / 65536 % 256, h / 256 % 256, h % 256] ++
  [channels, colorspace]

/-! ### Shared helper lemmas -/

theorem processBytes_append (l1 l2 : List Nat) : ∀ (s : DecoderState),
    processBytes s (l1 ++ l2) =
      match processBytes s l1 with
      | .error e => .error e
      | .ok s1 => processBytes s1 l2 := by
  induction l1 with
  | nil => intro s; rfl
  | cons b rest ih =>
    intro s
    simp only [List.cons_append, processBytes]
    cases stepByte s b with
    | error e => rfl
    | ok s1 => exact ih s1

theorem processChunks_eq_flatten (chunks : List (List Nat)) : ∀ (s : DecoderState),
    processChunks s chunks = processBytes s chunks.flatten := by
  induction chunks with
  | nil => intro s; rfl
  | cons c rest ih =>
    intro s
    rw [List.flatten_cons, processBytes_append]
    simp only [processChunks]
    cases processBytes s c with
    | error e => rfl
    | ok s1 => exact ih s1

/-! ### C1: behaviour when the byte source ends early -/

/-- C1: the claim says a source that ends before the header, the pixel
data, or the trailer is complete makes the session fail with a
premature-end error and return no partial data.  The code has no such
check: when the stream signals end, `getQoiPixelData` resolves normally
with whatever it has.  An empty stream yields undefined width/height
and no pixels; a 1x2 image truncated after one pixel and with no
trailer yields a partial pixel buffer. -/
theorem c1_truncated_stream_returns_partial_result :
    getQoiPixelData [] = .ok ⟨none, none, []⟩ ∧
    getQoiPixelData [serializeQoiHeader 1 2 4 0 ++ [255, 10, 20, 30, 40]] =
      .ok ⟨some 1, some 2, [⟨10, 20, 30, 40⟩]⟩ := by
  exact ⟨rfl, rfl⟩

/-! ### C2: colorspace byte validation -/

/-- C2: the claim says a colorspace byte other than 0 or 1 makes header
parsing fail with an unsupported-colorspace error.  The source's check
is `if (!SUPPORTED_COLORSPACE_MODES)`, which tests the truthiness of
the array object (always true) instead of membership, so parsing
accepts every colorspace byte: here a header with colorspace 2 parses
successfully. -/
theorem c2_any_colorspace_byte_accepted :
    parseQoiHeaderBytes (serializeQoiHeader 1 1 4 2) = .ok ⟨1, 1, 4, 2⟩ := by
  rfl

/-! ### C6: chunk-boundary resumability -/

/-- C6: feeding any partition of a byte stream chunk by chunk to one
decode session gives the same outcome as feeding the whole stream as a
single chunk — decoded width, height and pixel buffer included. -/
theorem c6_chunking_invariant (chunks : List (List Nat)) :
    getQoiPixelData chunks = getQoiPixelData [chunks.flatten] := by
  unfold getQoiPixelData
  rw [processChunks_eq_flatten, processChunks_eq_flatten [chunks.flatten]]
  simp

/-- C6 witness: the theorem applied at a concrete partition of the 1x1
RGBA stream that splits mid-header, mid-RGBA-opcode and mid-trailer. -/
theorem c6_chunking_invariant_witness :
    getQoiPixelData [[113, 111, 105], [102, 0, 0, 0, 1, 0, 0], [0, 1, 4, 0, 255, 10],
        [20, 30, 255, 0], [0, 0, 0, 0, 0, 0, 1]] =
      getQoiPixelData
        [[113, 111, 105, 102, 0, 0, 0, 1, 0, 0, 0, 1, 4, 0, 255, 10, 20, 30, 255, 0,
          0, 0, 0, 0, 0, 0, 1]] := by
  have h := c6_chunking_invariant [[113, 111, 105], [102, 0, 0, 0, 1, 0, 0],
    [0, 1, 4, 0, 255, 10], [20, 30, 255, 0], [0, 0, 0, 0, 0, 0, 1]]
  simpa using h

/-! ### C3: alpha-carry invariant -/

/-- C3 counterexample: the claim says an INDEX opcode never changes the
alpha of the previous-pixel register.  Decoding a 1x1 header followed
by the single INDEX opcode byte 5 reads the untouched cache slot 5,
i.e. pixel (0,0,0,0), into the register: its alpha drops from the
initial 255 to 0 although no RGBA opcode ever ran. -/
theorem c3_counterexample_index_changes_alpha :
    initState.lastPixel.a = 255 ∧
    (processBytes initState (serializeQoiHeader 1 1 4 0)).map
        (fun s => (s.op, s.lastPixel.a)) = .ok (OP_NONE_ID, 255) ∧
    (processBytes initState (serializeQoiHeader 1 1 4 0 ++ [5])).map
        (fun s => s.lastPixel.a) = .ok 0 := by
  exact ⟨rfl, rfl, rfl⟩

/-! ### C4: cache effect of an INDEX opcode -/

/-- C4 counterexample: the claim says the cache write after an INDEX
opcode is always a no-op.  After a 2x1 header and an RGBA opcode for
(64,0,0,0) — a pixel whose hash slot is 0 — slot 0 holds (64,0,0,0) and
slot 5 still holds the initial (0,0,0,0).  The INDEX opcode byte 5 then
retrieves (0,0,0,0) from slot 5 and re-stores it at its own hash slot,
which is slot 0, overwriting (64,0,0,0): the cache is changed. -/
theorem c4_counterexample_index_cache_write_changes_cache :
    (processBytes initState (serializeQoiHeader 2 1 4 0 ++ [255, 64, 0, 0, 0])).map
        (fun s => (s.op, s.indexValues.getD 0 zeroPixel, s.indexValues.getD 5 zeroPixel)) =
      .ok (OP_NONE_ID, ⟨64, 0, 0, 0⟩, ⟨0, 0, 0, 0⟩) ∧
    (processBytes initState
        (serializeQoiHeader 2 1 4 0 ++ [255, 64, 0, 0, 0] ++ [5])).map
        (fun s => s.indexValues.getD 0 zeroPixel) = .ok ⟨0, 0, 0, 0⟩ ∧
    (⟨64, 0, 0, 0⟩ : Pixel) ≠ ⟨0, 0, 0, 0⟩ := by
  exact ⟨rfl, rfl, by decide⟩

/-! ### C5: header round-trip -/

/-- C5 counterexample: the claim asserts the round-trip for every u32
width.  The source assembles width with `<<` and `|`, which produce a
signed 32-bit value, so the serialized width 2^31 parses back as
-2^31, not 2^31. -/
theorem c5_counterexample_high_width_parses_negative :
    parseQoiHeaderBytes (serializeQoiHeader 2147483648 0 3 0) =
      .ok ⟨-2147483648, 0, 3, 0⟩ ∧
    ((-2147483648 : Int) ≠ ((2147483648 : Nat) : Int)) := by
  exact ⟨rfl, by decide⟩

theorem beU32_digits (w : Nat) (hw : w < 2147483648) :
    beU32 (w / 16777216 % 256) (w / 65536 % 256) (w / 256 % 256) (w % 256) = (w : Int) := by
  have hsum : w / 16777216 % 256 * 16777216 + w / 65536 % 256 * 65536 +
      w / 256 % 256 * 256 + w % 256 = w := by omega
  have hcast : ((w / 16777216 % 256 : Nat) : Int) * 16777216 +
      ((w / 65536 % 256 : Nat) : Int) * 65536 +
      ((w / 256 % 256 : Nat) : Int) * 256 + ((w % 256 : Nat) : Int) = (w : Int) := by
    exact_mod_cast hsum
  unfold beU32 toInt32
  rw [hcast]
  have hmod : (w : Int).emod 4294967296 = (w : Int) :=
    Int.emod_eq_of_lt (by positivity) (by exact_mod_cast (show w < 4294967296 by omega))
  simp only [hmod]
  rw [if_pos (by exact_mod_cast hw)]

/-- C5 amended: the round-trip `parse(serialize(header)) = header`
holds for all headers whose width and height are below 2^31 (with
channels 3 or 4 and colorspace 0 or 1); widths or heights of 2^31 and
above parse back as negative signed values. -/
theorem c5_header_roundtrip (w h c cs : Nat)
    (hw : w < 2147483648) (hh : h < 2147483648)
    (hc : c = 3 ∨ c = 4) (hcs : cs = 0 ∨ cs = 1) :
    parseQoiHeaderBytes (serializeQoiHeader w h c cs) =
      .ok ⟨(w : Int), (h : Int), c, cs⟩ := by
  unfold serializeQoiHeader parseQoiHeaderBytes QOI_HEADER_MAGIC
  simp only [List.cons_append, List.nil_append, List.get?, List.getD, List.getElem?_cons_zero,
    List.getElem?_cons_succ, Option.getD_some]
  rw [if_neg (by simp)]
  rw [if_neg (by rcases hc with rfl | rfl <;> simp [SUPPORTED_CHANNEL_MODES, CHANNELS_RGB, CHANNELS_RGBA])]
  simp only [if_neg (by simp : ¬ (false = true))]
  rw [beU32_digits w hw, beU32_digits h hh]

/-- C5 witness: the amended round-trip applied to the concrete header
(5, 7, RGBA, linear). -/
theorem c5_header_roundtrip_witness :
    parseQoiHeaderBytes (serializeQoiHeader 5 7 4 1) = .ok ⟨5, 7, 4, 1⟩ :=
  c5_header_roundtrip 5 7 4 1 (by omega) (by omega) (Or.inr rfl) (Or.inr rfl)

/-! ### Bridge lemmas for bitwise arithmetic on bytes -/

theorem jsByteWrap_eq_emod (x : Int) (h1 : -40 ≤ x) (h2 : x ≤ 293) :
    jsByteWrap x = (x.emod 256).toNat := by
  have key : ∀ n : Fin 334,
      jsByteWrap ((n.val : Int) - 40) = ((((n.val : Int) - 40).emod 256).toNat) := by decide
  have hx : (((x + 40).toNat : Nat) : Int) - 40 = x := by omega
  have := key ⟨(x + 40).toNat, by omega⟩
  rw [hx] at this
  exact this

theorem dispatchTag_index (b : Nat) (h : b ≤ 63) : dispatchTag b = OP_INDEX_ID := by
  have key : ∀ n : Fin 64, dispatchTag n.val = OP_INDEX_ID := by decide
  exact key ⟨b, by omega⟩

theorem dispatchTag_diff (b : Nat) (h1 : 64 ≤ b) (h2 : b ≤ 127) :
    dispatchTag b = OP_DIFF_ID := by
  have key : ∀ n : Fin 128, 64 ≤ n.val → dispatchTag n.val = OP_DIFF_ID := by decide
  exact key ⟨b, by omega⟩ h1

theorem dispatchTag_luma (b : Nat) (h1 : 128 ≤ b) (h2 : b ≤ 191) :
    dispatchTag b = OP_LUMA_ID := by
  have key : ∀ n : Fin 192, 128 ≤ n.val → dispatchTag n.val = OP_LUMA_ID := by decide
  exact key ⟨b, by omega⟩ h1

theorem dispatchTag_run (b : Nat) (h1 : 192 ≤ b) (h2 : b ≤ 253) :
    dispatchTag b = OP_RUN_ID := by
  have key : ∀ n : Fin 254, 192 ≤ n.val → dispatchTag n.val = OP_RUN_ID := by decide
  exact key ⟨b, by omega⟩ h1

theorem land63_le (b : Nat) : b &&& 63 ≤ 63 :=
  Nat.le_of_lt_succ (Nat.lt_succ_of_le (Nat.and_le_right))

theorem land63_self (b : Nat) (h : b ≤ 63) : b &&& 63 = b := by
  have key : ∀ n : Fin 64, n.val &&& 63 = n.val := by decide
  exact key ⟨b, by omega⟩

/-! ### C9: trailer validation -/

/-- C9: once the pixel buffer is full (`pixelOffset` has reached the
buffer's byte length) every further byte is handled by the trailer
check, never as opcode data: a byte at trailer position 0-6 must be
0x00 and at position 7 must be 0x01, any mismatch or any position past
7 fails with the trailer-mismatch error, and a matching byte only
advances the offset, leaving pixels, previous pixel, cache and opcode
state untouched. -/
theorem c9_trailer_validation (s : DecoderState) (b : Nat)
    (hseen : s.seenHeader = true) (hfull : s.pixelOffset ≥ s.pixLen) :
    (((s.pixelOffset - s.pixLen < 7 ∧ b ≠ 0) ∨ (s.pixelOffset - s.pixLen = 7 ∧ b ≠ 1) ∨
        s.pixelOffset - s.pixLen > 7) →
      stepByte s b = .error .trailerMismatch) ∧
    (((s.pixelOffset - s.pixLen < 7 ∧ b = 0) ∨ (s.pixelOffset - s.pixLen = 7 ∧ b = 1)) →
      stepByte s b = .ok { s with pixelOffset := s.pixelOffset + 1 }) := by
  unfold stepByte
  rw [if_neg (by simp [hseen]), if_pos hfull]
  unfold stepTrailerByte
  constructor
  · intro h
    rw [if_pos h]
  · intro h
    rw [if_neg (by omega)]

/-- A concrete session state whose 1x1 pixel buffer is already full,
used to instantiate the trailer and opcode theorems. -/
def fullBufferState : DecoderState :=
  { initState with
    seenHeader := true
    width := some 1
    height := some 1
    channels := some 4
    colorspace := some 0
    pixLen := 4
    pixels := [⟨1, 2, 3, 4⟩]
    pixelOffset := 4
    op := OP_NONE_ID }

/-- C9 witness: at trailer position 0 the byte 9 fails, the byte 0 is
consumed and only advances the offset. -/
theorem c9_trailer_validation_witness :
    stepByte fullBufferState 9 = .error .trailerMismatch ∧
    stepByte fullBufferState 0 =
      .ok { fullBufferState with pixelOffset := fullBufferState.pixelOffset + 1 } :=
  ⟨(c9_trailer_validation fullBufferState 9 (by decide) (by decide)).1 (by decide),
   (c9_trailer_validation fullBufferState 0 (by decide) (by decide)).2 (by decide)⟩

/-! ### RUN-loop lemmas -/

theorem runLoop_succ (s : DecoderState) (n : Nat) :
    runLoop s (n + 1) =
      match writePixel s with
      | .error e => .error e
      | .ok s1 => runLoop s1 n := rfl

theorem runLoop_ok (n : Nat) : ∀ (s : DecoderState),
    s.pixelOffset + 4 * n ≤ s.pixLen →
    runLoop s n = .ok { s with pixels := s.pixels ++ List.replicate n s.lastPixel,
                               pixelOffset := s.pixelOffset + 4 * n } := by
  induction n with
  | zero => intro s h; simp [runLoop]
  | succ n ih =>
    intro s h
    have hw : writePixel s = .ok { s with pixels := s.pixels ++ [s.lastPixel], pixelOffset := s.pixelOffset + 4 } := by
      unfold writePixel
      rw [if_neg (by omega)]
    rw [runLoop_succ, hw]
    show runLoop { s with pixels := s.pixels ++ [s.lastPixel], pixelOffset := s.pixelOffset + 4 } n = _
    rw [ih { s with pixels := s.pixels ++ [s.lastPixel], pixelOffset := s.pixelOffset + 4 } (by simp; omega)]
    obtain ⟨f1, f2, f3, f4, f5, f6, f7, f8, f9, f10, f11, f12, f13, f14⟩ := s
    simp [List.replicate_succ]
    omega

theorem runLoop_overflow (n : Nat) : ∀ (s : DecoderState),
    s.pixelOffset ≤ s.pixLen → s.pixLen < s.pixelOffset + 4 * n →
    runLoop s n = .error .rangeError := by
  induction n with
  | zero => intro s h1 h2; exact absurd h2 (by omega)
  | succ n ih =>
    intro s h1 h2
    unfold runLoop writePixel
    by_cases hc : s.pixelOffset + 4 > s.pixLen
    · rw [if_pos hc]
    · rw [if_neg hc]
      exact ih _ (by simp; omega) (by simp; omega)

/-! ### C8: RUN emission -/

/-- C8: a RUN opcode byte (low six bits 0-61, run length that value
plus one) decoded while the buffer has room for the whole run appends
exactly that many copies of the previous pixel and leaves the
previous-pixel register unchanged. -/
theorem c8_run_emits_copies (s : DecoderState) (b : Nat)
    (hseen : s.seenHeader = true) (hroom : s.pixelOffset < s.pixLen)
    (hop : s.op = OP_NONE_ID) (hb1 : 192 ≤ b) (hb2 : b ≤ 253)
    (hcap : s.pixelOffset + 4 * ((b &&& 63) + 1) ≤ s.pixLen) :
    ∃ s1, stepByte s b = .ok s1 ∧
      s1.pixels = s.pixels ++ List.replicate ((b &&& 63) + 1) s.lastPixel ∧
      s1.lastPixel = s.lastPixel ∧
      s1.pixelOffset = s.pixelOffset + 4 * ((b &&& 63) + 1) := by
  unfold stepByte
  rw [if_neg (by simp [hseen]), if_neg (by omega)]
  unfold stepOpcodeByte
  rw [if_pos hop, dispatchTag_run b hb1 hb2]
  rw [if_neg (by decide : ¬ (OP_RUN_ID = OP_RGB_ID)),
    if_neg (by decide : ¬ (OP_RUN_ID = OP_RGBA_ID)),
    if_neg (by decide : ¬ (OP_RUN_ID = OP_INDEX_ID)),
    if_neg (by decide : ¬ (OP_RUN_ID = OP_DIFF_ID)),
    if_neg (by decide : ¬ (OP_RUN_ID = OP_LUMA_ID)),
    if_pos (rfl : OP_RUN_ID = OP_RUN_ID)]
  unfold handleRUN
  rw [runLoop_ok ((b &&& 63) + 1) { s with op := OP_RUN_ID } (by simp; omega)]
  exact ⟨_, rfl, by simp [storeAndReset], by simp [storeAndReset], by simp [storeAndReset]⟩

/-! ### C10: RUN past the end of the buffer -/

/-- C10: a RUN opcode whose run length exceeds the remaining capacity
of the pixel buffer makes the session fail with the out-of-range write
error instead of emitting pixels past the end. -/
theorem c10_run_overflow_fails (s : DecoderState) (b : Nat)
    (hseen : s.seenHeader = true) (hroom : s.pixelOffset < s.pixLen)
    (hop : s.op = OP_NONE_ID) (hb1 : 192 ≤ b) (hb2 : b ≤ 253)
    (hcap : s.pixLen < s.pixelOffset + 4 * ((b &&& 63) + 1)) :
    stepByte s b = .error .rangeError := by
  unfold stepByte
  rw [if_neg (by simp [hseen]), if_neg (by omega)]
  unfold stepOpcodeByte
  rw [if_pos hop, dispatchTag_run b hb1 hb2]
  rw [if_neg (by decide : ¬ (OP_RUN_ID = OP_RGB_ID)),
    if_neg (by decide : ¬ (OP_RUN_ID = OP_RGBA_ID)),
    if_neg (by decide : ¬ (OP_RUN_ID = OP_INDEX_ID)),
    if_neg (by decide : ¬ (OP_RUN_ID = OP_DIFF_ID)),
    if_neg (by decide : ¬ (OP_RUN_ID = OP_LUMA_ID)),
    if_pos (rfl : OP_RUN_ID = OP_RUN_ID)]
  unfold handleRUN
  rw [runLoop_overflow ((b &&& 63) + 1) { s with op := OP_RUN_ID } (by simp; omega)
    (by simp; omega)]

/-- A concrete session state just past the header of a 2x1 RGBA image
with an empty pixel buffer, used to instantiate the opcode theorems. -/
def freshBufferState : DecoderState :=
  { initState with
    seenHeader := true
    width := some 2
    height := some 1
    channels := some 4
    colorspace := some 0
    pixLen := 8
    op := OP_NONE_ID }

/-- C8 witness: the RUN byte 0b11000001 (run length 2) on the fresh 2x1
buffer emits two copies of the seeded previous pixel. -/
theorem c8_run_emits_copies_witness :
    ∃ s1, stepByte freshBufferState 193 = .ok s1 ∧
      s1.pixels = freshBufferState.pixels ++
        List.replicate ((193 &&& 63) + 1) freshBufferState.lastPixel ∧
      s1.lastPixel = freshBufferState.lastPixel ∧
      s1.pixelOffset = freshBufferState.pixelOffset + 4 * ((193 &&& 63) + 1) :=
  c8_run_emits_copies freshBufferState 193 (by decide) (by decide) (by decide)
    (by decide) (by decide) (by decide)

/-- A concrete session state just past the header of a 1x1 RGBA image,
used to instantiate the RUN overflow theorem. -/
def tinyBufferState : DecoderState :=
  { initState with
    seenHeader := true
    width := some 1
    height := some 1
    channels := some 4
    colorspace := some 0
    pixLen := 4
    op := OP_NONE_ID }

/-- C10 witness: the RUN byte 0b11000001 (run length 2) on a 1x1 buffer
overruns it and the session fails with the out-of-range write error. -/
theorem c10_run_overflow_fails_witness :
    stepByte tinyBufferState 193 = .error .rangeError :=
  c10_run_overflow_fails tinyBufferState 193 (by decide) (by decide) (by decide)
    (by decide) (by decide) (by decide)

/-! ### Preservation lemmas for the emission path -/

theorem writePixel_lastPixel {s t : DecoderState} (h : writePixel s = .ok t) :
    t.lastPixel = s.lastPixel := by
  unfold writePixel at h
  split at h
  · exact absurd h (by simp)
  · cases h
    rfl

theorem writePixel_indexValues {s t : DecoderState} (h : writePixel s = .ok t) :
    t.indexValues = s.indexValues := by
  unfold writePixel at h
  split at h
  · exact absurd h (by simp)
  · cases h
    rfl

theorem runLoop_lastPixel (n : Nat) : ∀ {s t : DecoderState},
    runLoop s n = .ok t → t.lastPixel = s.lastPixel := by
  induction n with
  | zero =>
    intro s t h
    cases h
    rfl
  | succ n ih =>
    intro s t h
    rw [runLoop_succ] at h
    cases hw : writePixel s with
    | error e => rw [hw] at h; exact absurd h (by simp)
    | ok s1 =>
      rw [hw] at h
      exact (ih h).trans (writePixel_lastPixel hw)

theorem storeAndReset_lastPixel (s : DecoderState) :
    (storeAndReset s).lastPixel = s.lastPixel := rfl

theorem getD_set_self : ∀ (l : List Nat) (i : Nat) (x : Nat), i < l.length →
    (l.set i x).getD i 0 = x := by
  intro l
  induction l with
  | nil => intro i x h; exact absurd h (by simp)
  | cons y ys ih =>
    intro i x h
    cases i with
    | zero => rfl
    | succ j => exact ih j x (by simpa using h)

/-! ### Dispatch lemmas: which handler a byte reaches -/

theorem stepOpcode_dispatch_rgb_tag (s : DecoderState) (hop : s.op = OP_NONE_ID) :
    stepOpcodeByte s 254 = handleRGB { s with op := OP_RGB_ID } 254 := by
  unfold stepOpcodeByte
  rw [if_pos hop]
  rw [show dispatchTag 254 = OP_RGB_ID from by decide]
  rw [if_pos (rfl : OP_RGB_ID = OP_RGB_ID)]

theorem stepOpcode_dispatch_index (s : DecoderState) (b : Nat) (hop : s.op = OP_NONE_ID)
    (h2 : b ≤ 63) :
    stepOpcodeByte s b = handleINDEX { s with op := OP_INDEX_ID } b := by
  unfold stepOpcodeByte
  rw [if_pos hop, dispatchTag_index b h2]
  rw [if_neg (by decide : ¬ (OP_INDEX_ID = OP_RGB_ID)),
    if_neg (by decide : ¬ (OP_INDEX_ID = OP_RGBA_ID)),
    if_pos (rfl : OP_INDEX_ID = OP_INDEX_ID)]

theorem stepOpcode_dispatch_diff (s : DecoderState) (b : Nat) (hop : s.op = OP_NONE_ID)
    (h1 : 64 ≤ b) (h2 : b ≤ 127) :
    stepOpcodeByte s b = handleDIFF { s with op := OP_DIFF_ID } b := by
  unfold stepOpcodeByte
  rw [if_pos hop, dispatchTag_diff b h1 h2]
  rw [if_neg (by decide : ¬ (OP_DIFF_ID = OP_RGB_ID)),
    if_neg (by decide : ¬ (OP_DIFF_ID = OP_RGBA_ID)),
    if_neg (by decide : ¬ (OP_DIFF_ID = OP_INDEX_ID)),
    if_pos (rfl : OP_DIFF_ID = OP_DIFF_ID)]

theorem stepOpcode_dispatch_luma (s : DecoderState) (b : Nat) (hop : s.op = OP_NONE_ID)
    (h1 : 128 ≤ b) (h2 : b ≤ 191) :
    stepOpcodeByte s b = handleLUMA { s with op := OP_LUMA_ID } b := by
  unfold stepOpcodeByte
  rw [if_pos hop, dispatchTag_luma b h1 h2]
  rw [if_neg (by decide : ¬ (OP_LUMA_ID = OP_RGB_ID)),
    if_neg (by decide : ¬ (OP_LUMA_ID = OP_RGBA_ID)),
    if_neg (by decide : ¬ (OP_LUMA_ID = OP_INDEX_ID)),
    if_neg (by decide : ¬ (OP_LUMA_ID = OP_DIFF_ID)),
    if_pos (rfl : OP_LUMA_ID = OP_LUMA_ID)]

theorem stepOpcode_dispatch_run (s : DecoderState) (b : Nat) (hop : s.op = OP_NONE_ID)
    (h1 : 192 ≤ b) (h2 : b ≤ 253) :
    stepOpcodeByte s b = handleRUN { s with op := OP_RUN_ID } b := by
  unfold stepOpcodeByte
  rw [if_pos hop, dispatchTag_run b h1 h2]
  rw [if_neg (by decide : ¬ (OP_RUN_ID = OP_RGB_ID)),
    if_neg (by decide : ¬ (OP_RUN_ID = OP_RGBA_ID)),
    if_neg (by decide : ¬ (OP_RUN_ID = OP_INDEX_ID)),
    if_neg (by decide : ¬ (OP_RUN_ID = OP_DIFF_ID)),
    if_neg (by decide : ¬ (OP_RUN_ID = OP_LUMA_ID)),
    if_pos (rfl : OP_RUN_ID = OP_RUN_ID)]

theorem stepOpcode_cont_rgb (s : DecoderState) (b : Nat) (hop : s.op = OP_RGB_ID) :
    stepOpcodeByte s b = handleRGB { s with op := OP_RGB_ID } b := by
  unfold stepOpcodeByte
  rw [hop]
  rw [if_neg (by decide : ¬ (OP_RGB_ID = OP_NONE_ID))]
  rw [if_pos (rfl : OP_RGB_ID = OP_RGB_ID)]

theorem stepOpcode_cont_luma (s : DecoderState) (b : Nat) (hop : s.op = OP_LUMA_ID) :
    stepOpcodeByte s b = handleLUMA { s with op := OP_LUMA_ID } b := by
  unfold stepOpcodeByte
  rw [hop]
  rw [if_neg (by decide : ¬ (OP_LUMA_ID = OP_NONE_ID))]
  rw [if_neg (by decide : ¬ (OP_LUMA_ID = OP_RGB_ID)),
    if_neg (by decide : ¬ (OP_LUMA_ID = OP_RGBA_ID)),
    if_neg (by decide : ¬ (OP_LUMA_ID = OP_INDEX_ID)),
    if_neg (by decide : ¬ (OP_LUMA_ID = OP_DIFF_ID)),
    if_pos (rfl : OP_LUMA_ID = OP_LUMA_ID)]

/-! ### Emission-tail lemmas -/

theorem emitPixel_lastPixel {s2 t : DecoderState} (h : emitPixel s2 = .ok t) :
    t.lastPixel = s2.lastPixel := by
  unfold emitPixel at h
  cases hw : writePixel s2 with
  | error e => rw [hw] at h; exact absurd h (by simp)
  | ok s3 =>
    rw [hw] at h
    simp only [Except.ok.injEq] at h
    rw [← h, storeAndReset_lastPixel]
    exact writePixel_lastPixel hw

theorem emitPixel_indexValues {s2 t : DecoderState} (h : emitPixel s2 = .ok t) :
    t.indexValues = s2.indexValues.set (hashIndex s2.lastPixel) s2.lastPixel := by
  unfold emitPixel at h
  cases hw : writePixel s2 with
  | error e => rw [hw] at h; exact absurd h (by simp)
  | ok s3 =>
    rw [hw] at h
    simp only [Except.ok.injEq] at h
    have hiv : s3.indexValues = s2.indexValues := writePixel_indexValues hw
    have hlp : s3.lastPixel = s2.lastPixel := writePixel_lastPixel hw
    rw [← h]
    show s3.indexValues.set (hashIndex s3.lastPixel) s3.lastPixel = _
    rw [hiv, hlp]

/-! ### Alpha preservation per handler -/

theorem update_lastPixel (s : DecoderState) (x : Pixel) :
    ({ s with lastPixel := x } : DecoderState).lastPixel = x := rfl

theorem pixel_mk_r (w1 w2 w3 w4 : Nat) : (⟨w1, w2, w3, w4⟩ : Pixel).r = w1 := rfl

theorem pixel_mk_g (w1 w2 w3 w4 : Nat) : (⟨w1, w2, w3, w4⟩ : Pixel).g = w2 := rfl

theorem pixel_mk_b (w1 w2 w3 w4 : Nat) : (⟨w1, w2, w3, w4⟩ : Pixel).b = w3 := rfl

theorem pixel_mk_a (w1 w2 w3 w4 : Nat) : (⟨w1, w2, w3, w4⟩ : Pixel).a = w4 := rfl

theorem diffPixel_def (p : Pixel) (byte : Nat) : diffPixel p byte =
    ⟨jsByteWrap ((p.r : Int) + diffRedOf byte),
     jsByteWrap ((p.g : Int) + diffGreenOf byte),
     jsByteWrap ((p.b : Int) + diffBlueOf byte),
     p.a⟩ := rfl

theorem lumaPixel_def (p : Pixel) (b0 byte : Nat) : lumaPixel p b0 byte =
    ⟨jsByteWrap ((p.r : Int) + lumaDiffRed b0 byte),
     jsByteWrap ((p.g : Int) + lumaDiffGreen b0),
     jsByteWrap ((p.b : Int) + lumaDiffBlue b0 byte),
     p.a⟩ := rfl

theorem diffPixel_a (p : Pixel) (byte : Nat) : (diffPixel p byte).a = p.a := by
  rw [diffPixel_def, pixel_mk_a]

theorem lumaPixel_a (p : Pixel) (b0 byte : Nat) : (lumaPixel p b0 byte).a = p.a := by
  rw [lumaPixel_def, pixel_mk_a]

theorem handleDIFF_alpha (s : DecoderState) (b : Nat) {t : DecoderState}
    (h : handleDIFF s b = .ok t) : t.lastPixel.a = s.lastPixel.a := by
  unfold handleDIFF at h
  have h2 := emitPixel_lastPixel h
  rw [update_lastPixel] at h2
  rw [h2, diffPixel_a]

theorem handleLUMA_alpha (s : DecoderState) (b : Nat) {t : DecoderState}
    (h : handleLUMA s b = .ok t) : t.lastPixel.a = s.lastPixel.a := by
  unfold handleLUMA at h
  by_cases h0 : s.opOffset = 0
  · rw [if_pos h0] at h
    simp only [Except.ok.injEq] at h
    rw [← h]
  · rw [if_neg h0] at h
    have h2 := emitPixel_lastPixel h
    rw [update_lastPixel] at h2
    rw [h2, lumaPixel_a]

theorem handleRUN_alpha (s : DecoderState) (b : Nat) {t : DecoderState}
    (h : handleRUN s b = .ok t) : t.lastPixel.a = s.lastPixel.a := by
  unfold handleRUN at h
  cases hr : runLoop s ((b &&& 63) + 1) with
  | error e => rw [hr] at h; exact absurd h (by simp)
  | ok s1 =>
    rw [hr] at h
    simp only [Except.ok.injEq] at h
    rw [← h, storeAndReset_lastPixel]
    exact congrArg Pixel.a (runLoop_lastPixel _ hr)

theorem handleRGB_alpha (s : DecoderState) (b : Nat) (hbuf : s.opBuffer.length = 4)
    {t : DecoderState} (h : handleRGB s b = .ok t) : t.lastPixel.a = s.lastPixel.a := by
  unfold handleRGB at h
  by_cases h0 : s.opOffset > 0
  · rw [if_pos h0] at h
    by_cases h1 : s.opOffset + 1 ≤ 3
    · rw [if_pos h1] at h
      simp only [Except.ok.injEq] at h
      rw [← h]
    · rw [if_neg h1] at h
      rw [emitPixel_lastPixel h]
      exact getD_set_self _ 3 _ (by simp [hbuf])
  · rw [if_neg h0] at h
    by_cases h1 : s.opOffset + 1 ≤ 3
    · rw [if_pos h1] at h
      simp only [Except.ok.injEq] at h
      rw [← h]
    · rw [if_neg h1] at h
      rw [emitPixel_lastPixel h]
      exact getD_set_self _ 3 _ (by simp [hbuf])

/-! ### C3: which opcodes can change the alpha register -/

/-- C3 amended: decoding a DIFF, LUMA or RUN opcode, or any byte of an
RGB opcode (whose emitted pixel carries the previous alpha), never
changes the alpha of the previous-pixel register; an INDEX opcode,
however, replaces the register with the cached pixel, alpha included,
so an emitted pixel's alpha equals either the most recently explicitly
set alpha or the alpha of a cached pixel (0 for never-written slots).
The hypotheses describe any mid-decode state: header seen, pixel buffer
not yet full, four-byte scratch buffer, and the byte either starts a
DIFF/LUMA/RUN/RGB opcode or continues an RGB/LUMA one. -/
theorem c3_alpha_unchanged_by_diff_luma_run_rgb (s : DecoderState) (b : Nat)
    (t : DecoderState) (hseen : s.seenHeader = true) (hroom : s.pixelOffset < s.pixLen)
    (hbuf : s.opBuffer.length = 4)
    (hcase : (s.op = OP_NONE_ID ∧ 64 ≤ b ∧ b ≤ 254) ∨ s.op = OP_RGB_ID ∨ s.op = OP_LUMA_ID)
    (hok : stepByte s b = .ok t) :
    t.lastPixel.a = s.lastPixel.a := by
  unfold stepByte at hok
  rw [if_neg (by simp [hseen]), if_neg (by omega)] at hok
  rcases hcase with ⟨hop, hb1, hb2⟩ | hop | hop
  · rcases Nat.lt_or_ge b 128 with hx | hx
    · rw [stepOpcode_dispatch_diff s b hop hb1 (by omega)] at hok
      exact handleDIFF_alpha { s with op := OP_DIFF_ID } b hok
    · rcases Nat.lt_or_ge b 192 with hy | hy
      · rw [stepOpcode_dispatch_luma s b hop (by omega) (by omega)] at hok
        exact handleLUMA_alpha { s with op := OP_LUMA_ID } b hok
      · rcases Nat.lt_or_ge b 254 with hz | hz
        · rw [stepOpcode_dispatch_run s b hop (by omega) (by omega)] at hok
          exact handleRUN_alpha { s with op := OP_RUN_ID } b hok
        · have hb : b = 254 := by omega
          subst hb
          rw [stepOpcode_dispatch_rgb_tag s hop] at hok
          exact handleRGB_alpha { s with op := OP_RGB_ID } 254 (by simpa using hbuf) hok
  · rw [stepOpcode_cont_rgb s b hop] at hok
    exact handleRGB_alpha { s with op := OP_RGB_ID } b (by simpa using hbuf) hok
  · rw [stepOpcode_cont_luma s b hop] at hok
    exact handleLUMA_alpha { s with op := OP_LUMA_ID } b hok

/-- The state a DIFF byte produces from the fresh 2x1 buffer, computed
for the C3 witness. -/
def c3WitnessOut : DecoderState := ((stepByte freshBufferState 64).toOption).getD initState

/-- C3 witness: the DIFF byte 0b01000000 on the fresh buffer leaves the
register's alpha at 255. -/
theorem c3_alpha_unchanged_witness :
    stepByte freshBufferState 64 = .ok c3WitnessOut ∧
    c3WitnessOut.lastPixel.a = freshBufferState.lastPixel.a :=
  ⟨rfl, c3_alpha_unchanged_by_diff_luma_run_rgb freshBufferState 64 c3WitnessOut
    (by decide) (by decide) (by decide) (Or.inl ⟨by decide, by decide, by decide⟩) rfl⟩

/-! ### C4: when the INDEX cache re-write is a no-op -/

theorem update_lastPixel_indexValues (s : DecoderState) (x : Pixel) :
    ({ s with lastPixel := x } : DecoderState).indexValues = s.indexValues := rfl

theorem update_op_indexValues (s : DecoderState) (v : Int) :
    ({ s with op := v } : DecoderState).indexValues = s.indexValues := rfl

theorem list_set_getD_self : ∀ (l : List Pixel) (i : Nat), i < l.length →
    l.set i (l.getD i zeroPixel) = l := by
  intro l
  induction l with
  | nil => intro i h; exact absurd h (by simp)
  | cons y ys ih =>
    intro i h
    cases i with
    | zero => rfl
    | succ j =>
      show y :: ys.set j (ys.getD j zeroPixel) = y :: ys
      rw [ih j (by simpa using h)]

/-- C4 amended: the cache write performed after an INDEX opcode is a
no-op exactly when the retrieved pixel hashes back to the slot it was
read from — which holds for every slot previously written by the
decoder's own store path, but not for a never-written slot `i ≠ 0`,
whose zero pixel hashes to slot 0 and whose re-store can overwrite a
different color there. -/
theorem c4_index_cache_noop_when_hash_matches (s : DecoderState) (b : Nat)
    (t : DecoderState) (hseen : s.seenHeader = true) (hroom : s.pixelOffset < s.pixLen)
    (hop : s.op = OP_NONE_ID) (hb : b ≤ 63) (hlen : s.indexValues.length = 64)
    (hhash : hashIndex (s.indexValues.getD b zeroPixel) = b)
    (hok : stepByte s b = .ok t) :
    t.indexValues = s.indexValues := by
  unfold stepByte at hok
  rw [if_neg (by simp [hseen]), if_neg (by omega)] at hok
  rw [stepOpcode_dispatch_index s b hop hb] at hok
  unfold handleINDEX at hok
  have h2 := emitPixel_indexValues hok
  rw [update_lastPixel, update_lastPixel_indexValues, update_op_indexValues,
    land63_self b hb] at h2
  rw [hhash] at h2
  rw [h2]
  exact list_set_getD_self s.indexValues b (by rw [hlen]; omega)

/-- The state the INDEX byte 0 produces from the fresh 2x1 buffer,
computed for the C4 witness. -/
def c4WitnessOut : DecoderState := ((stepByte freshBufferState 0).toOption).getD initState

/-- C4 witness: the INDEX byte 0 reads slot 0, which holds the zero
pixel whose hash slot is 0 again, so the cache is unchanged. -/
theorem c4_index_cache_noop_witness :
    stepByte freshBufferState 0 = .ok c4WitnessOut ∧
    c4WitnessOut.indexValues = freshBufferState.indexValues :=
  ⟨rfl, c4_index_cache_noop_when_hash_matches freshBufferState 0 c4WitnessOut
    (by decide) (by decide) (by decide) (by decide) (by decide) (by decide) rfl⟩

/-! ### C7: DIFF and LUMA arithmetic wraps modulo 256 -/

theorem update_op_lastPixel (s : DecoderState) (v : Int) :
    ({ s with op := v } : DecoderState).lastPixel = s.lastPixel := rfl

theorem update_op_opBuffer (s : DecoderState) (v : Int) :
    ({ s with op := v } : DecoderState).opBuffer = s.opBuffer := rfl

theorem jsByteWrap_cast (x : Int) (h1 : -40 ≤ x) (h2 : x ≤ 293) :
    ((jsByteWrap x : Nat) : Int) = x.emod 256 := by
  rw [jsByteWrap_eq_emod x h1 h2]
  exact Int.toNat_of_nonneg (Int.emod_nonneg x (by decide))

theorem diffRedOf_bounds (b : Nat) : -2 ≤ diffRedOf b ∧ diffRedOf b ≤ 1 := by
  have h : b &&& 48 ≤ 48 := Nat.and_le_right
  have h2 : (b &&& 48) >>> 4 ≤ 3 := by rw [Nat.shiftRight_eq_div_pow]; omega
  unfold diffRedOf
  omega

theorem diffGreenOf_bounds (b : Nat) : -2 ≤ diffGreenOf b ∧ diffGreenOf b ≤ 1 := by
  have h : b &&& 12 ≤ 12 := Nat.and_le_right
  have h2 : (b &&& 12) >>> 2 ≤ 3 := by rw [Nat.shiftRight_eq_div_pow]; omega
  unfold diffGreenOf
  omega

theorem diffBlueOf_bounds (b : Nat) : -2 ≤ diffBlueOf b ∧ diffBlueOf b ≤ 1 := by
  have h : b &&& 3 ≤ 3 := Nat.and_le_right
  unfold diffBlueOf
  omega

theorem lumaDiffGreen_bounds (b0 : Nat) (h : b0 ≤ 63) :
    -32 ≤ lumaDiffGreen b0 ∧ lumaDiffGreen b0 ≤ 31 := by
  unfold lumaDiffGreen
  omega

theorem lumaDiffRed_bounds (b0 byte : Nat) (h : b0 ≤ 63) :
    -40 ≤ lumaDiffRed b0 byte ∧ lumaDiffRed b0 byte ≤ 38 := by
  have h1 : byte &&& 240 ≤ 240 := Nat.and_le_right
  have h2 : (byte &&& 240) >>> 4 ≤ 15 := by rw [Nat.shiftRight_eq_div_pow]; omega
  unfold lumaDiffRed lumaDiffGreen
  omega

theorem lumaDiffBlue_bounds (b0 byte : Nat) (h : b0 ≤ 63) :
    -40 ≤ lumaDiffBlue b0 byte ∧ lumaDiffBlue b0 byte ≤ 38 := by
  have h1 : byte &&& 15 ≤ 15 := Nat.and_le_right
  unfold lumaDiffBlue lumaDiffGreen
  omega

/-- C7: in a DIFF opcode each 2-bit delta, and in a LUMA opcode each
derived delta, is added to the previous pixel's corresponding channel
modulo 256 (the source's `(v | 0x100) & 0xff` wrap), wrapping in both
directions, and the alpha channel is unchanged.  Channel bytes are
below 256 and the parked LUMA byte is six bits, as in every reachable
state. -/
theorem c7_diff_luma_wrap_mod256 :
    (∀ (s : DecoderState) (b : Nat) (s1 : DecoderState),
      s.seenHeader = true → s.pixelOffset < s.pixLen → s.op = OP_NONE_ID →
      64 ≤ b → b ≤ 127 →
      s.lastPixel.r ≤ 255 → s.lastPixel.g ≤ 255 → s.lastPixel.b ≤ 255 →
      stepByte s b = .ok s1 →
        ((s1.lastPixel.r : Int) = ((s.lastPixel.r : Int) + diffRedOf b).emod 256 ∧
         (s1.lastPixel.g : Int) = ((s.lastPixel.g : Int) + diffGreenOf b).emod 256 ∧
         (s1.lastPixel.b : Int) = ((s.lastPixel.b : Int) + diffBlueOf b).emod 256 ∧
         s1.lastPixel.a = s.lastPixel.a)) ∧
    (∀ (s : DecoderState) (b : Nat) (s1 : DecoderState),
      s.seenHeader = true → s.pixelOffset < s.pixLen → s.op = OP_LUMA_ID →
      s.opOffset ≠ 0 → s.opBuffer.getD 0 0 ≤ 63 →
      s.lastPixel.r ≤ 255 → s.lastPixel.g ≤ 255 → s.lastPixel.b ≤ 255 →
      stepByte s b = .ok s1 →
        ((s1.lastPixel.r : Int) =
            ((s.lastPixel.r : Int) + lumaDiffRed (s.opBuffer.getD 0 0) b).emod 256 ∧
         (s1.lastPixel.g : Int) =
            ((s.lastPixel.g : Int) + lumaDiffGreen (s.opBuffer.getD 0 0)).emod 256 ∧
         (s1.lastPixel.b : Int) =
            ((s.lastPixel.b : Int) + lumaDiffBlue (s.opBuffer.getD 0 0) b).emod 256 ∧
         s1.lastPixel.a = s.lastPixel.a)) := by
  constructor
  · intro s b s1 hseen hroom hop hb1 hb2 hr hg hbb hok
    unfold stepByte at hok
    rw [if_neg (by simp [hseen]), if_neg (by omega)] at hok
    rw [stepOpcode_dispatch_diff s b hop hb1 hb2] at hok
    unfold handleDIFF at hok
    have h2 := emitPixel_lastPixel hok
    rw [update_lastPixel] at h2
    rw [show ({ s with op := OP_DIFF_ID } : DecoderState).lastPixel = s.lastPixel from rfl]
      at h2
    have hdr := diffRedOf_bounds b
    have hdg := diffGreenOf_bounds b
    have hdb := diffBlueOf_bounds b
    refine ⟨?_, ?_, ?_, ?_⟩
    · rw [h2, diffPixel_def, pixel_mk_r]
      exact jsByteWrap_cast _ (by omega) (by omega)
    · rw [h2, diffPixel_def, pixel_mk_g]
      exact jsByteWrap_cast _ (by omega) (by omega)
    · rw [h2, diffPixel_def, pixel_mk_b]
      exact jsByteWrap_cast _ (by omega) (by omega)
    · rw [h2, diffPixel_a]
  · intro s b s1 hseen hroom hop hopo hb0 hr hg hbb hok
    unfold stepByte at hok
    rw [if_neg (by simp [hseen]), if_neg (by omega)] at hok
    rw [stepOpcode_cont_luma s b hop] at hok
    unfold handleLUMA at hok
    rw [if_neg (show ¬ (({ s with op := OP_LUMA_ID } : DecoderState).opOffset = 0) from hopo)]
      at hok
    have h2 := emitPixel_lastPixel hok
    rw [update_lastPixel] at h2
    rw [show ({ s with op := OP_LUMA_ID } : DecoderState).lastPixel = s.lastPixel from rfl,
      show ({ s with op := OP_LUMA_ID } : DecoderState).opBuffer = s.opBuffer from rfl] at h2
    have hdr := lumaDiffRed_bounds (s.opBuffer.getD 0 0) b hb0
    have hdg := lumaDiffGreen_bounds (s.opBuffer.getD 0 0) hb0
    have hdb := lumaDiffBlue_bounds (s.opBuffer.getD 0 0) b hb0
    refine ⟨?_, ?_, ?_, ?_⟩
    · rw [h2, lumaPixel_def, pixel_mk_r]
      exact jsByteWrap_cast _ (by omega) (by omega)
    · rw [h2, lumaPixel_def, pixel_mk_g]
      exact jsByteWrap_cast _ (by omega) (by omega)
    · rw [h2, lumaPixel_def, pixel_mk_b]
      exact jsByteWrap_cast _ (by omega) (by omega)
    · rw [h2, lumaPixel_a]

/-- Concrete DIFF input for the C7 witness: previous pixel (0,1,2,9). -/
def c7DiffIn : DecoderState := { freshBufferState with lastPixel := ⟨0, 1, 2, 9⟩ }

/-- The state the DIFF byte 0b01000000 produces from `c7DiffIn`. -/
def c7DiffOut : DecoderState := ((stepByte c7DiffIn 64).toOption).getD initState

/-- Concrete LUMA input for the C7 witness: previous pixel
(255,40,7,9), first LUMA byte already parked (dG = 1). -/
def c7LumaIn : DecoderState :=
  { freshBufferState with
    lastPixel := ⟨255, 40, 7, 9⟩
    op := OP_LUMA_ID
    opOffset := 1
    opBuffer := [33, 0, 0, 0] }

/-- The state the LUMA second byte 0x88 produces from `c7LumaIn`. -/
def c7LumaOut : DecoderState := ((stepByte c7LumaIn 136).toOption).getD initState

/-- C7 witness: DIFF with delta -2 on red 0 wraps down to 254, and LUMA
with delta +1 on red 255 wraps up to 0; alpha is carried. -/
theorem c7_diff_luma_wrap_mod256_witness :
    stepByte c7DiffIn 64 = .ok c7DiffOut ∧
    (c7DiffOut.lastPixel.r : Int) = ((c7DiffIn.lastPixel.r : Int) + diffRedOf 64).emod 256 ∧
    c7DiffOut.lastPixel.r = 254 ∧
    c7DiffOut.lastPixel.a = c7DiffIn.lastPixel.a ∧
    stepByte c7LumaIn 136 = .ok c7LumaOut ∧
    (c7LumaOut.lastPixel.r : Int) =
      ((c7LumaIn.lastPixel.r : Int) + lumaDiffRed (c7LumaIn.opBuffer.getD 0 0) 136).emod 256 ∧
    c7LumaOut.lastPixel.r = 0 :=
  ⟨rfl,
   (c7_diff_luma_wrap_mod256.1 c7DiffIn 64 c7DiffOut (by decide) (by decide) (by decide)
     (by decide) (by decide) (by decide) (by decide) (by decide) rfl).1,
   by decide,
   (c7_diff_luma_wrap_mod256.1 c7DiffIn 64 c7DiffOut (by decide) (by decide) (by decide)
     (by decide) (by decide) (by decide) (by decide) (by decide) rfl).2.2.2,
   rfl,
   (c7_diff_luma_wrap_mod256.2 c7LumaIn 136 c7LumaOut (by decide) (by decide) (by decide)
     (by decide) (by decide) (by decide) (by decide) (by decide) rfl).1,
   by decide⟩
